import Mathlib

/-!
Verification of the VectraBank banking-analysis core (main_starter.py):
the deterministic risk-scoring engine, the risk-tier function, the report
synthesizer (findings / recommendations generators), the context assembler,
and the sequential stage-pipeline wrapper with its interaction log.

Python floats are modelled by exact rationals: every adjustment applied by
the scoring engine is an exact multiple of 1/100, and the source rounds the
final sum with round(x, 3), so the rational model and the float computation
agree on every reachable result. Python round is round-half-even, but no
reachable value sits at a half-thousandth boundary, so modelling the
rounding step as round-half-up on rationals is exact.
-/

namespace VectraBank

/-- One recent transaction of a customer (a row of `recent_transactions`).
Only `amount`, `description` and `ts` are read by the core. -/
structure Transaction where
  amount : ℚ
  description : String
  ts : String
deriving Repr, DecidableEq

/-- Customer profile (class CustomerProfile of main_starter.py).
The source stores `customer_since` as a string parsed on use with
strptime "%Y-%m-%d"; relative to the fixed reference time of one scoring
run, the only information the scorer extracts is the tenure in years
(`(now - since).days / 365.25`).  The field is therefore modelled as the
outcome of that parse: `some years`, or `none` when the string is empty or
strptime raises ValueError (missing or malformed date). -/
structure CustomerProfile where
  customer_id : String
  income : ℚ
  credit_score : ℤ
  account_type : String
  customer_since : Option ℚ
  risk_tier : String
  recent_transactions : List Transaction
  banking_products : List String
  last_review_date : String
deriving Repr, DecidableEq

/-- One ranked policy excerpt returned by the hybrid search
(a dict with keys "filename", "collection", "document", "final_score"). -/
structure SearchResult where
  filename : String
  collection : String
  document : String
  final_score : ℚ
deriving Repr, DecidableEq

/-- Python round(x, 3): round to the nearest multiple of 1/1000. -/
def round3 (x : ℚ) : ℚ := (round (x * 1000) : ℤ) / 1000

/-- Stand-in for Python numeric formatting ("${:,.2f}", "{:.3f}").  The
verified claims concern list structure and truncation counts, never the
rendered digits, so the exact digit formatting is abstracted. -/
def fmtMoney (x : ℚ) : String := toString x

/-- Income factor of _calculate_enhanced_risk_score (lines 596-603). -/
def incomeAdj (income : ℚ) : ℚ :=
  if income ≥ 100000 then -(15/100)
  else if income ≥ 75000 then -(10/100)
  else if income ≥ 50000 then -(5/100)
  else if income < 30000 then 10/100
  else 0

/-- Credit-score factor of _calculate_enhanced_risk_score (lines 606-613). -/
def creditAdj (credit_score : ℤ) : ℚ :=
  if credit_score ≥ 750 then -(15/100)
  else if credit_score ≥ 700 then -(8/100)
  else if credit_score ≥ 650 then 5/100
  else if credit_score > 0 then 15/100
  else 0

/-- Tenure factor of _calculate_enhanced_risk_score (lines 616-627):
years since `customer_since` relative to the reference time; a missing or
malformed date (the `except ValueError: pass` path) contributes nothing. -/
def tenureAdj : Option ℚ → ℚ
  | none => 0
  | some years =>
      if years ≥ 5 then -(10/100)
      else if years ≥ 3 then -(5/100)
      else if years < 1 then 8/100
      else 0

/-- Product-diversification factor (lines 630-636). -/
def productAdj (num_products : ℕ) : ℚ :=
  if num_products ≥ 4 then -(8/100)
  else if num_products ≥ 2 then -(3/100)
  else if num_products ≤ 1 then 5/100
  else 0

/-- Python max over a nonempty list of rationals. -/
def listMax : List ℚ → ℚ
  | [] => 0
  | a :: as => as.foldl max a

/-- Python min over a nonempty list of rationals. -/
def listMin : List ℚ → ℚ
  | [] => 0
  | a :: as => as.foldl min a

/-- Transaction-magnitude factor (lines 639-646): guarded by
`if transactions:`, so the empty list contributes nothing. -/
def transactionAdj (transactions : List Transaction) : ℚ :=
  match transactions with
  | [] => 0
  | _ :: _ =>
      let amounts := transactions.map (fun t => t.amount)
      let max_amount := listMax amounts
      if max_amount > 10000 then 10/100
      else if max_amount > 5000 then 3/100
      else 0

/-- The unclamped, unrounded sum computed by _calculate_enhanced_risk_score:
base 0.5 plus the five independent additive factors. -/
def rawRiskScore (p : CustomerProfile) : ℚ :=
  1/2 + incomeAdj p.income + creditAdj p.credit_score
      + tenureAdj p.customer_since
      + productAdj p.banking_products.length
      + transactionAdj p.recent_transactions

/-- _calculate_enhanced_risk_score (lines 591-648):
`return max(0.0, min(1.0, round(base_score, 3)))`.  The `search_results`
parameter is accepted by the source but never read. -/
def calculate_enhanced_risk_score (p : CustomerProfile)
    (_search_results : List SearchResult) : ℚ :=
  max 0 (min 1 (round3 (rawRiskScore p)))

/-- _determine_risk_tier (lines 650-661). -/
def determine_risk_tier (risk_score : ℚ) : String :=
  if risk_score < 25/100 then "low"
  else if risk_score < 50/100 then "medium-low"
  else if risk_score < 65/100 then "medium"
  else if risk_score < 80/100 then "high"
  else "critical"

/-- _generate_enhanced_findings (lines 663-706).  Python list.append is
translated to list concatenation; the Python `set(...)` of collections is
modelled by `List.dedup` of the same elements. -/
def generate_enhanced_findings (p : CustomerProfile)
    (search_results : List SearchResult)
    (agent_contributions : List (String × String)) : List String :=
  let findings := ["Customer " ++ p.customer_id ++ " analysis completed with "
      ++ toString agent_contributions.length ++ " agent contributions"]
  let findings := findings ++
    (if p.income ≥ 75000 then
      ["Customer qualifies for Tier A+ or A lending products (income: $"
        ++ fmtMoney p.income ++ ")"]
     else if p.income ≥ 50000 then
      ["Customer qualifies for Tier B lending products (income: $"
        ++ fmtMoney p.income ++ ")"]
     else if p.income ≥ 30000 then
      ["Customer qualifies for Tier C lending products (income: $"
        ++ fmtMoney p.income ++ ")"]
     else
      ["Customer income ($" ++ fmtMoney p.income ++ ") may limit product eligibility"])
  let findings := findings ++
    (if p.credit_score ≥ 750 then
      ["Excellent credit score (" ++ toString p.credit_score
        ++ ") - eligible for best rates (3.5% APR)"]
     else if p.credit_score ≥ 700 then
      ["Good credit score (" ++ toString p.credit_score
        ++ ") - eligible for competitive rates (4.5% APR)"]
     else if p.credit_score ≥ 650 then
      ["Fair credit score (" ++ toString p.credit_score
        ++ ") - standard rates apply (6.0% APR)"]
     else if p.credit_score > 0 then
      ["Credit score (" ++ toString p.credit_score
        ++ ") requires case-by-case assessment"]
     else [])
  let findings := findings ++
    (if p.banking_products.length ≥ 4 then
      ["High product engagement (" ++ toString p.banking_products.length
        ++ " products) indicates strong customer relationship"]
     else if p.banking_products.length ≤ 1 then
      ["Low product engagement (" ++ toString p.banking_products.length
        ++ " product) - cross-sell opportunity identified"]
     else [])
  let findings := findings ++
    (match p.recent_transactions with
     | [] => []
     | _ :: _ =>
        let amounts := p.recent_transactions.map (fun t => t.amount)
        ["Recent transaction activity: " ++ toString amounts.length
          ++ " transactions, range $" ++ fmtMoney (listMin amounts)
          ++ "-$" ++ fmtMoney (listMax amounts)])
  let findings := findings ++
    (match search_results with
     | [] => []
     | _ :: _ =>
        let collections := ((search_results.take 5).map (fun r => r.collection)).dedup
        ["Relevant policy areas identified: " ++ String.intercalate ", " collections])
  findings

/-- The rule-based portion of _generate_enhanced_recommendations
(lines 710-742), everything before the fewer-than-two fallback check.
Python's `products = set(customer_profile.banking_products)` membership is
modelled by list membership over the same elements. -/
def ruleBasedRecommendations (p : CustomerProfile) (risk_score : ℚ) : List String :=
  let recommendations : List String := []
  let risk_tier := determine_risk_tier risk_score
  let recommendations := recommendations ++
    (if risk_tier = "high" ∨ risk_tier = "critical" then
      ["Implement enhanced monitoring with quarterly risk reviews",
       "Consider requiring additional documentation for high-value transactions"]
     else if risk_tier = "medium" then
      ["Maintain standard monitoring with semi-annual reviews"]
     else
      ["Continue standard monitoring with annual reviews"])
  let recommendations := recommendations ++
    (if "investment" ∉ p.banking_products ∧ p.income ≥ 50000 then
      ["Recommend investment portfolio services based on income level"] else [])
  let recommendations := recommendations ++
    (if "savings" ∉ p.banking_products then
      ["Recommend high-yield savings account to improve financial health"] else [])
  let recommendations := recommendations ++
    (if "credit_card" ∉ p.banking_products ∧ p.credit_score ≥ 650 then
      ["Eligible for rewards credit card based on credit profile"] else [])
  let recommendations := recommendations ++
    (if "mortgage" ∉ p.banking_products ∧ p.income ≥ 75000 ∧ p.credit_score ≥ 700 then
      ["Pre-qualify for mortgage products at competitive rates"] else [])
  let recommendations := recommendations ++
    (if p.account_type = "basic" ∧ p.income ≥ 50000 then
      ["Upgrade to premium account tier based on income qualification"] else [])
  let recommendations := recommendations ++
    (if p.banking_products.length ≤ 1 then
      ["Initiate cross-sell engagement program to deepen customer relationship"] else [])
  let recommendations := recommendations ++
    (if p.credit_score < 700 ∧ p.credit_score > 0 then
      ["Offer credit-building program to improve eligibility for premium products"] else [])
  recommendations

/-- _generate_enhanced_recommendations (lines 708-748): the rule-based
recommendations, plus the generic fallback appended when fewer than two
were produced (lines 745-746). -/
def generate_enhanced_recommendations (p : CustomerProfile) (risk_score : ℚ) : List String :=
  let recommendations := ruleBasedRecommendations p risk_score
  if recommendations.length < 2 then
    recommendations
      ++ ["Schedule periodic financial health review to identify emerging opportunities"]
  else recommendations

/-- Python string slice s[:n].  In this Lean version String wraps a list of
characters, so the slice is a take on that list. -/
def strTake (s : String) (n : ℕ) : String := String.mk (s.data.take n)

/-- One transaction line of the context (line 769). -/
def txLine (tx : Transaction) : String :=
  "- $" ++ fmtMoney tx.amount ++ " - " ++ tx.description ++ " (" ++ tx.ts ++ ")\n"

/-- The transaction lines of the context: the loop over
customer_profile.recent_transactions[:10] (line 768). -/
def contextTxLines (p : CustomerProfile) : List String :=
  (p.recent_transactions.take 10).map txLine

/-- One "--- Policy Reference i ---" block of the context (lines 774-777),
with the excerpt text sliced to 500 characters. -/
def policyBlock (i : ℕ) (r : SearchResult) : String :=
  "\n--- Policy Reference " ++ toString i ++ " (Source: " ++ r.filename ++ ", "
    ++ "Collection: " ++ r.collection ++ ", "
    ++ "Relevance: " ++ fmtMoney r.final_score ++ ") ---\n"
    ++ strTake r.document 500 ++ "\n"

/-- The policy blocks of the context: the loop over
enumerate(search_results[:6], 1) (line 773). -/
def contextPolicyBlocks (search_results : List SearchResult) : List String :=
  (search_results.take 6).enum.map (fun ir => policyBlock (ir.fst + 1) ir.snd)

/-- The CUSTOMER PROFILE block of the context (lines 754-764).  The raw
`customer_since` string is rendered through its parsed model value. -/
def customerSection (p : CustomerProfile) : String :=
  "\nCUSTOMER PROFILE:\n- Customer ID: " ++ p.customer_id
    ++ "\n- Annual Income: $" ++ fmtMoney p.income
    ++ "\n- Credit Score: " ++ toString p.credit_score
    ++ "\n- Account Type: " ++ p.account_type
    ++ "\n- Customer Since: " ++ toString (repr p.customer_since)
    ++ "\n- Risk Tier: " ++ p.risk_tier
    ++ "\n- Banking Products: "
    ++ (if p.banking_products.isEmpty then "None"
        else String.intercalate ", " p.banking_products)
    ++ "\n- Last Review Date: " ++ p.last_review_date ++ "\n"

/-- _prepare_enhanced_context (lines 750-794).  `policy_summary` stands for
the external create_semantic_kernel_context(self.banking_policies) result,
which the assembler only concatenates. -/
def prepare_enhanced_context (p : CustomerProfile)
    (search_results : List SearchResult)
    (customer_query policy_summary : String) : String :=
  "\nBANKING ANALYSIS REQUEST: " ++ customer_query ++ "\n\n"
    ++ customerSection p ++ "\n"
    ++ ("\nRECENT TRANSACTIONS:\n" ++ String.join (contextTxLines p)) ++ "\n"
    ++ ("\nRELEVANT BANKING POLICIES:\n" ++ String.join (contextPolicyBlocks search_results)) ++ "\n"
    ++ ("\nPOLICY FRAMEWORK SUMMARY:\n" ++ policy_summary) ++ "\n\n"
    ++ "ANALYSIS SCOPE:\nProvide a comprehensive analysis covering fraud detection, loan eligibility,\ncustomer service optimization, enterprise risk assessment, and strategic recommendations.\n"

/-- The six hard-coded agent names supplied by create_enhanced_agents
(lines 297-434) to the sequential orchestration, in source order.  The
instruction texts are opaque prompts for the generation capability and are
not modelled. -/
def enhanced_agent_names : List String :=
  ["Enhanced_Data_Gatherer", "Enhanced_Fraud_Analyst", "Enhanced_Loan_Analyst",
   "Enhanced_Support_Specialist", "Enhanced_Risk_Analyst",
   "Enhanced_Synthesis_Coordinator"]

/-- Python dict assignment d[k] = v as performed by enhanced_agent_callback
(line 488) on agent_contributions: update in place when the key exists,
otherwise append at the end. -/
def dictInsert : List (String × String) → String → String → List (String × String)
  | [], k, v => [(k, v)]
  | (k0, v0) :: rest, k, v =>
      if k0 = k then (k0, v) :: rest else (k0, v0) :: dictInsert rest k v

/-- Outcome of one orchestration run: the callback's contribution dict, the
number of generation-capability invocations made, and either the final
output text or the propagated stage error. -/
structure PipelineOutcome where
  contributions : List (String × String)
  invocations : ℕ
  result : Except String String
deriving Repr

/-- Sequential stage execution as run_enhanced_analysis drives it
(lines 496-532): members are invoked strictly in list order through the
generation capability `gen`; each successful response fires the callback
(recorded via dictInsert); the first raised error aborts the run.  No
validation of the member list (in particular no duplicate-name check)
is performed anywhere on this path. -/
def runStages (gen : String → Except String String) :
    List String → List (String × String) → ℕ → String → PipelineOutcome
  | [], contribs, n, last => { contributions := contribs, invocations := n, result := Except.ok last }
  | s :: rest, contribs, n, _ =>
      match gen s with
      | Except.error e => { contributions := contribs, invocations := n + 1, result := Except.error e }
      | Except.ok txt => runStages gen rest (dictInsert contribs s txt) (n + 1) txt

/-- One full orchestration invocation over a member list, starting from an
empty contribution dict. -/
def runPipeline (gen : String → Except String String) (stages : List String) :
    PipelineOutcome :=
  runStages gen stages [] 0 ""

/-- Modelled from the spec: an Interaction Record of the append-only
Interaction Log kept by SharedState (module shared_state, not under src):
customer id plus the outcome (report id or failure reason). -/
structure InteractionRecord where
  customer_id : String
  outcome : String
deriving Repr, DecidableEq

/-- Modelled from the spec: SharedState.record_failure (called at
line 586) appends exactly one failure record to the append-only log. -/
def record_failure (log : List InteractionRecord) (customer_id failure : String) :
    List InteractionRecord :=
  log ++ [{ customer_id := customer_id, outcome := failure }]

/-- Modelled from the spec: SharedState.update_interaction (called at
line 575) appends exactly one success record to the append-only log. -/
def update_interaction (log : List InteractionRecord) (customer_id report_id : String) :
    List InteractionRecord :=
  log ++ [{ customer_id := customer_id, outcome := report_id }]

/-- The Analysis Report (class EnhancedBankingReport), restricted to the
fields produced by the modelled core.  report_id (a fresh uuid),
actions_taken, policy_references and timing metrics are external glue. -/
structure EnhancedBankingReport where
  customer_id : String
  query : String
  summary : String
  key_findings : List String
  risk_assessment : String
  risk_score : ℚ
  recommendations : List String
  agent_contributions : List (String × String)
deriving Repr, DecidableEq

/-- run_enhanced_analysis (lines 453-589), from the point where the
orchestration is invoked: on success the report is synthesized and one
success record is appended to the interaction log; on a stage failure the
error is re-raised (line 587) after record_failure appends one failure
record (line 586), and no report exists.  Profile resolution and document
loading are upstream of this model; `report_id` generation is elided. -/
def run_enhanced_analysis (gen : String → Except String String)
    (log : List InteractionRecord) (p : CustomerProfile)
    (search_results : List SearchResult) (customer_query : String) :
    Except String EnhancedBankingReport × List InteractionRecord :=
  let outcome := runPipeline gen enhanced_agent_names
  match outcome.result with
  | Except.error e => (Except.error e, record_failure log p.customer_id e)
  | Except.ok final_output =>
      let risk_score := calculate_enhanced_risk_score p search_results
      let report : EnhancedBankingReport :=
        { customer_id := p.customer_id
          query := customer_query
          summary := final_output
          key_findings := generate_enhanced_findings p search_results outcome.contributions
          risk_assessment := determine_risk_tier risk_score
          risk_score := risk_score
          recommendations := generate_enhanced_recommendations p risk_score
          agent_contributions := outcome.contributions }
      (Except.ok report, update_interaction log p.customer_id report.customer_id)

/-- Scenario A of the spec: the "12345" sample profile with the tenure
factor skipped (no parseable start date). -/
def scenarioA : CustomerProfile :=
  { customer_id := "12345", income := 75000, credit_score := 780,
    account_type := "premium_plus", customer_since := none, risk_tier := "low",
    recent_transactions :=
      [{ amount := 4500, description := "Salary Deposit", ts := "2024-03-20" },
       { amount := 1500, description := "Mortgage Payment", ts := "2024-03-15" },
       { amount := 300, description := "Investment Contribution", ts := "2024-03-10" },
       { amount := 200, description := "Utility Bills", ts := "2024-03-05" }],
    banking_products := ["checking", "savings", "mortgage", "investment", "credit_card"],
    last_review_date := "2024-01-10" }

/-- Scenario B of the spec: the "11111" sample profile with the tenure
factor skipped. -/
def scenarioB : CustomerProfile :=
  { customer_id := "11111", income := 28000, credit_score := 620,
    account_type := "basic", customer_since := none, risk_tier := "high",
    recent_transactions :=
      [{ amount := 2300, description := "Salary Deposit", ts := "2024-03-20" },
       { amount := 800, description := "Rent Payment", ts := "2024-03-12" },
       { amount := 300, description := "Credit Card Payment", ts := "2024-03-07" },
       { amount := 150, description := "Overdraft Fee", ts := "2024-03-01" }],
    banking_products := ["checking"],
    last_review_date := "2024-03-01" }

/-- C3: _determine_risk_tier partitions scores into half-open,
lower-bound-inclusive intervals — below 0.25 "low", [0.25, 0.50)
"medium-low", [0.50, 0.65) "medium", [0.65, 0.80) "high", 0.80 and above
"critical" — and in particular maps 0.25 to "medium-low", 0.5 to "medium",
0.65 to "high" and 0.80 to "critical". -/
theorem risk_tier_partition (s : ℚ) :
    (s < 25/100 → determine_risk_tier s = "low") ∧
    (25/100 ≤ s → s < 50/100 → determine_risk_tier s = "medium-low") ∧
    (50/100 ≤ s → s < 65/100 → determine_risk_tier s = "medium") ∧
    (65/100 ≤ s → s < 80/100 → determine_risk_tier s = "high") ∧
    (80/100 ≤ s → determine_risk_tier s = "critical") ∧
    determine_risk_tier (25/100) = "medium-low" ∧
    determine_risk_tier (50/100) = "medium" ∧
    determine_risk_tier (65/100) = "high" ∧
    determine_risk_tier (80/100) = "critical" := by
  unfold determine_risk_tier
  refine ⟨fun h => ?_, fun h1 h2 => ?_, fun h1 h2 => ?_, fun h1 h2 => ?_,
    fun h => ?_, ?_, ?_, ?_, ?_⟩ <;>
    (split_ifs <;> first | rfl | linarith)

/-- Witness for C3 at concrete scores inside each interval. -/
theorem risk_tier_partition_witness :
    determine_risk_tier (3/10) = "medium-low" ∧ determine_risk_tier (7/10) = "high" :=
  ⟨(risk_tier_partition (3/10)).2.1 (by norm_num) (by norm_num),
   (risk_tier_partition (7/10)).2.2.2.1 (by norm_num) (by norm_num)⟩

theorem round3_mono {x y : ℚ} (h : x ≤ y) : round3 x ≤ round3 y := by
  unfold round3
  have hr : round (x * 1000) ≤ round (y * 1000) := by
    rw [round_eq, round_eq]
    exact Int.floor_mono (by linarith)
  have hc : ((round (x * 1000) : ℤ) : ℚ) ≤ ((round (y * 1000) : ℤ) : ℚ) :=
    Int.cast_le.mpr hr
  exact div_le_div_of_nonneg_right hc (by norm_num) |>.trans_eq rfl

theorem incomeAdj_bounds (i : ℚ) : -(15/100) ≤ incomeAdj i ∧ incomeAdj i ≤ 10/100 := by
  unfold incomeAdj; split_ifs <;> norm_num

theorem creditAdj_bounds (c : ℤ) : -(15/100) ≤ creditAdj c ∧ creditAdj c ≤ 15/100 := by
  unfold creditAdj; split_ifs <;> norm_num

theorem tenureAdj_bounds (t : Option ℚ) : -(10/100) ≤ tenureAdj t ∧ tenureAdj t ≤ 8/100 := by
  cases t with
  | none => simp [tenureAdj]; norm_num
  | some y => simp only [tenureAdj]; split_ifs <;> norm_num

theorem productAdj_bounds (n : ℕ) : -(8/100) ≤ productAdj n ∧ productAdj n ≤ 5/100 := by
  unfold productAdj; split_ifs <;> norm_num

theorem transactionAdj_bounds (txs : List Transaction) :
    0 ≤ transactionAdj txs ∧ transactionAdj txs ≤ 10/100 := by
  cases txs with
  | nil => simp [transactionAdj]; norm_num
  | cons a as => simp only [transactionAdj]; split_ifs <;> norm_num

/-- The unclamped, unrounded score always lies in [0.02, 0.98]: the factor
adjustments sum to at most 0.48 in either direction around the base 0.5. -/
theorem rawRiskScore_bounds (p : CustomerProfile) :
    1/50 ≤ rawRiskScore p ∧ rawRiskScore p ≤ 49/50 := by
  obtain ⟨hi1, hi2⟩ := incomeAdj_bounds p.income
  obtain ⟨hc1, hc2⟩ := creditAdj_bounds p.credit_score
  obtain ⟨ht1, ht2⟩ := tenureAdj_bounds p.customer_since
  obtain ⟨hp1, hp2⟩ := productAdj_bounds p.banking_products.length
  obtain ⟨hx1, hx2⟩ := transactionAdj_bounds p.recent_transactions
  unfold rawRiskScore
  constructor <;> linarith

/-- The rounded raw score is already inside [0, 1], so the final
max/min clamp of the source returns it unchanged. -/
theorem score_eq_round3_raw (p : CustomerProfile) (rs : List SearchResult) :
    calculate_enhanced_risk_score p rs = round3 (rawRiskScore p) := by
  obtain ⟨h1, h2⟩ := rawRiskScore_bounds p
  have e1 : round3 (1/50 : ℚ) = 1/50 := by norm_num [round3, round_eq]
  have e2 : round3 (49/50 : ℚ) = 49/50 := by norm_num [round3, round_eq]
  have hr1 : (0 : ℚ) ≤ round3 (rawRiskScore p) := by
    have := round3_mono h1; rw [e1] at this; linarith
  have hr2 : round3 (rawRiskScore p) ≤ 1 := by
    have := round3_mono h2; rw [e2] at this; linarith
  unfold calculate_enhanced_risk_score
  rw [min_eq_right hr2, max_eq_right hr1]

/-- C1: for every customer profile (at a fixed reference time for the
tenure factor) the risk score lies in [0, 1], is an integer multiple of
1/1000 (rounded to 3 decimal places), and two calls on identical inputs
return identical scores. -/
theorem risk_score_bounded_rounded (p : CustomerProfile) (rs : List SearchResult) :
    0 ≤ calculate_enhanced_risk_score p rs ∧
    calculate_enhanced_risk_score p rs ≤ 1 ∧
    (∃ n : ℤ, calculate_enhanced_risk_score p rs = (n : ℚ) / 1000) ∧
    (∀ q : CustomerProfile, ∀ rs2 : List SearchResult, q = p → rs2 = rs →
      calculate_enhanced_risk_score q rs2 = calculate_enhanced_risk_score p rs) := by
  refine ⟨le_max_left 0 _, max_le (by norm_num) (min_le_left 1 _), ?_, ?_⟩
  · refine ⟨round (rawRiskScore p * 1000), ?_⟩
    rw [score_eq_round3_raw, round3]
  · intro q rs2 hq hrs; rw [hq, hrs]

/-- Witness for C1 at scenario A. -/
theorem risk_score_bounded_rounded_witness :
    0 ≤ calculate_enhanced_risk_score scenarioA [] ∧
    calculate_enhanced_risk_score scenarioA [] = calculate_enhanced_risk_score scenarioA [] :=
  ⟨(risk_score_bounded_rounded scenarioA []).1,
   (risk_score_bounded_rounded scenarioA []).2.2.2 scenarioA [] rfl rfl⟩

/-- C10: the unclamped sum of base score and the five factor adjustments
always lies in [0.02, 0.98], so the final clamp to [0, 1] never changes
the rounded result: the score equals the rounded raw sum directly. -/
theorem clamp_never_changes_result (p : CustomerProfile) (rs : List SearchResult) :
    1/50 ≤ rawRiskScore p ∧ rawRiskScore p ≤ 49/50 ∧
    calculate_enhanced_risk_score p rs = round3 (rawRiskScore p) :=
  ⟨(rawRiskScore_bounds p).1, (rawRiskScore_bounds p).2, score_eq_round3_raw p rs⟩

/-- C4: the scoring function maps scenario A (income 75000, credit 780, no
tenure date, 5 products, max recent transaction 4500) to score 0.17 and
tier "low", and scenario B (income 28000, credit 620, no tenure date, 1
product, max recent transaction 2300) to score 0.80 and tier "critical". -/
theorem scenario_scores :
    calculate_enhanced_risk_score scenarioA [] = 17/100 ∧
    determine_risk_tier (calculate_enhanced_risk_score scenarioA []) = "low" ∧
    calculate_enhanced_risk_score scenarioB [] = 80/100 ∧
    determine_risk_tier (calculate_enhanced_risk_score scenarioB []) = "critical" := by
  have hA : calculate_enhanced_risk_score scenarioA [] = 17/100 := by
    norm_num [calculate_enhanced_risk_score, rawRiskScore, incomeAdj, creditAdj,
      tenureAdj, productAdj, transactionAdj, listMax, round3, round_eq,
      scenarioA, max_def, min_def]
  have hB : calculate_enhanced_risk_score scenarioB [] = 80/100 := by
    norm_num [calculate_enhanced_risk_score, rawRiskScore, incomeAdj, creditAdj,
      tenureAdj, productAdj, transactionAdj, listMax, round3, round_eq,
      scenarioB, max_def, min_def]
  refine ⟨hA, ?_, hB, ?_⟩
  · rw [hA]; norm_num [determine_risk_tier]
  · rw [hB]; norm_num [determine_risk_tier]

/-- C9: relative to the same profile with the tenure factor removed, a
parsed tenure of at least 5 years adjusts the raw score by −0.10, at least
3 (and below 5) years by −0.05, under 1 year by +0.08; a missing or
unparseable start date contributes no tenure term at all (the scoring
function is total: the ValueError path of the source is the `none` case). -/
theorem tenure_factor (p : CustomerProfile) (y : ℚ) :
    (p.customer_since = some y → 5 ≤ y →
      rawRiskScore p = rawRiskScore { p with customer_since := none } - 10/100) ∧
    (p.customer_since = some y → 3 ≤ y → y < 5 →
      rawRiskScore p = rawRiskScore { p with customer_since := none } - 5/100) ∧
    (p.customer_since = some y → y < 1 →
      rawRiskScore p = rawRiskScore { p with customer_since := none } + 8/100) ∧
    (p.customer_since = none →
      rawRiskScore p = 1/2 + incomeAdj p.income + creditAdj p.credit_score
        + productAdj p.banking_products.length
        + transactionAdj p.recent_transactions) := by
  refine ⟨fun h hy => ?_, fun h hy1 hy2 => ?_, fun h hy => ?_, fun h => ?_⟩ <;>
    simp only [rawRiskScore, h, tenureAdj] <;>
    first
      | (split_ifs <;> linarith)
      | ring

/-- A profile with five years of parsed tenure, for the C9 witness. -/
def tenuredProfile : CustomerProfile := { scenarioA with customer_since := some 6 }

/-- Witness for C9: six years of tenure lowers the raw score by 0.10. -/
theorem tenure_factor_witness :
    rawRiskScore tenuredProfile =
      rawRiskScore { tenuredProfile with customer_since := none } - 10/100 :=
  (tenure_factor tenuredProfile 6).1 rfl (by norm_num)

theorem incomeAdj_antitone {i1 i2 : ℚ} (h : i1 ≤ i2) : incomeAdj i2 ≤ incomeAdj i1 := by
  unfold incomeAdj
  split_ifs <;> linarith

theorem creditAdj_antitone_pos {c1 c2 : ℤ} (h0 : 0 < c1) (h : c1 ≤ c2) :
    creditAdj c2 ≤ creditAdj c1 := by
  unfold creditAdj
  split_ifs <;> linarith

/-- The profile of the C5 counterexample: credit score 0 (unknown), all
other factors neutral and fixed. -/
def profileCreditUnknown : CustomerProfile :=
  { customer_id := "c0", income := 40000, credit_score := 0,
    account_type := "standard", customer_since := none, risk_tier := "medium",
    recent_transactions := [{ amount := 100, description := "d", ts := "t" }],
    banking_products := ["checking", "savings"], last_review_date := "" }

/-- Counterexample to C5 as stated: holding every other factor fixed,
raising the credit score from 0 to 650 crosses the 650 tier boundary yet
strictly increases the risk score (0.47 to 0.52), because a score of 0
means "unknown" and receives no adjustment while 650 receives +0.05. -/
theorem credit_monotonicity_counterexample :
    profileCreditUnknown.credit_score = 0 ∧ (0 : ℤ) < 650 ∧
    calculate_enhanced_risk_score profileCreditUnknown [] <
      calculate_enhanced_risk_score { profileCreditUnknown with credit_score := 650 } [] := by
  refine ⟨rfl, by norm_num, ?_⟩
  norm_num [calculate_enhanced_risk_score, rawRiskScore, incomeAdj, creditAdj,
    tenureAdj, productAdj, transactionAdj, listMax, round3, round_eq,
    profileCreditUnknown, max_def, min_def]

/-- C5 amended: holding all other factors and the reference time fixed,
increasing income never increases the risk score, and increasing a known
(positive) credit score never increases the risk score.  The restriction
to positive credit scores is forced: 0 encodes "unknown" and receives no
adjustment, so raising a score from 0 across the 650 boundary can increase
the result (see the counterexample). -/
theorem risk_score_monotone (p : CustomerProfile) (rs : List SearchResult)
    (i1 i2 : ℚ) (c1 c2 : ℤ) :
    (i1 ≤ i2 →
      calculate_enhanced_risk_score { p with income := i2 } rs ≤
        calculate_enhanced_risk_score { p with income := i1 } rs) ∧
    (0 < c1 → c1 ≤ c2 →
      calculate_enhanced_risk_score { p with credit_score := c2 } rs ≤
        calculate_enhanced_risk_score { p with credit_score := c1 } rs) := by
  constructor
  · intro h
    unfold calculate_enhanced_risk_score
    refine max_le_max le_rfl (min_le_min le_rfl (round3_mono ?_))
    simp only [rawRiskScore]
    have := incomeAdj_antitone h
    linarith
  · intro h0 h
    unfold calculate_enhanced_risk_score
    refine max_le_max le_rfl (min_le_min le_rfl (round3_mono ?_))
    simp only [rawRiskScore]
    have := creditAdj_antitone_pos h0 h
    linarith

/-- Witness for the amended C5 at a concrete boundary crossing
(income 49000 to 50000, credit 649 to 650). -/
theorem risk_score_monotone_witness :
    calculate_enhanced_risk_score { profileCreditUnknown with income := 50000 } [] ≤
      calculate_enhanced_risk_score { profileCreditUnknown with income := 49000 } [] ∧
    calculate_enhanced_risk_score { profileCreditUnknown with credit_score := 650 } [] ≤
      calculate_enhanced_risk_score { profileCreditUnknown with credit_score := 649 } [] :=
  ⟨(risk_score_monotone profileCreditUnknown [] 49000 50000 1 1).1 (by norm_num),
   (risk_score_monotone profileCreditUnknown [] 0 0 649 650).2 (by norm_num) (by norm_num)⟩

/-- The first, risk-tier-driven recommendation block always contributes at
least one entry (two for high/critical tiers, one otherwise). -/
theorem ruleBasedRecommendations_length_pos (p : CustomerProfile) (risk_score : ℚ) :
    1 ≤ (ruleBasedRecommendations p risk_score).length := by
  simp only [ruleBasedRecommendations, List.nil_append, List.length_append]
  split_ifs <;> simp

/-- C7: for every profile, search-result list, contribution mapping and
risk score, the findings list is nonempty and the recommendations list is
nonempty — in fact it always has at least two entries, because the generic
fallback recommendation is appended exactly when the rule-based pass
produced fewer than two. -/
theorem synthesizer_guarantees (p : CustomerProfile) (rs : List SearchResult)
    (contribs : List (String × String)) (risk_score : ℚ) :
    1 ≤ (generate_enhanced_findings p rs contribs).length ∧
    1 ≤ (generate_enhanced_recommendations p risk_score).length ∧
    2 ≤ (generate_enhanced_recommendations p risk_score).length ∧
    ((ruleBasedRecommendations p risk_score).length < 2 →
      generate_enhanced_recommendations p risk_score =
        ruleBasedRecommendations p risk_score
          ++ ["Schedule periodic financial health review to identify emerging opportunities"]) ∧
    (2 ≤ (ruleBasedRecommendations p risk_score).length →
      generate_enhanced_recommendations p risk_score = ruleBasedRecommendations p risk_score) := by
  have hfind : 1 ≤ (generate_enhanced_findings p rs contribs).length := by
    simp only [generate_enhanced_findings, List.length_append, List.length_cons,
      List.length_nil]
    omega
  have hrule := ruleBasedRecommendations_length_pos p risk_score
  have hrec2 : 2 ≤ (generate_enhanced_recommendations p risk_score).length := by
    simp only [generate_enhanced_recommendations]
    split_ifs with hlt
    · simp only [List.length_append, List.length_cons, List.length_nil]
      omega
    · omega
  refine ⟨hfind, by omega, hrec2, fun hlt => ?_, fun hge => ?_⟩
  · simp only [generate_enhanced_recommendations]
    rw [if_pos hlt]
  · simp only [generate_enhanced_recommendations]
    rw [if_neg (by omega)]

/-- Witness for C7 at scenario B and its risk score. -/
theorem synthesizer_guarantees_witness :
    generate_enhanced_recommendations scenarioB (80/100) =
      ruleBasedRecommendations scenarioB (80/100) :=
  (synthesizer_guarantees scenarioB [] [] (80/100)).2.2.2.2 (by
    simp only [ruleBasedRecommendations, determine_risk_tier, scenarioB,
      List.nil_append, List.length_append]
    norm_num)

/-- A search result whose excerpt text is sliced to 500 characters. -/
def truncResult (r : SearchResult) : SearchResult :=
  { r with document := strTake r.document 500 }

theorem strTake_strTake (s : String) (n : ℕ) : strTake (strTake s n) n = strTake s n := by
  simp only [strTake]
  exact congrArg String.mk (by rw [List.take_take]; simp)

theorem strTake_length_le (s : String) (n : ℕ) : (strTake s n).length ≤ n := by
  have h : (strTake s n).length = (s.data.take n).length := rfl
  rw [h]
  exact List.length_take_le n s.data

theorem policyBlock_truncResult (i : ℕ) (r : SearchResult) :
    policyBlock i (truncResult r) = policyBlock i r := by
  simp only [policyBlock, truncResult, strTake_strTake]

theorem contextTxLines_trunc (p : CustomerProfile) :
    contextTxLines { p with recent_transactions := p.recent_transactions.take 10 } =
      contextTxLines p := by
  simp only [contextTxLines]
  rw [List.take_take]
  simp

theorem contextPolicyBlocks_trunc (rs : List SearchResult) :
    contextPolicyBlocks ((rs.take 6).map truncResult) = contextPolicyBlocks rs := by
  simp only [contextPolicyBlocks]
  rw [List.take_of_length_le (by simp), List.enum_map,
    List.map_map]
  refine List.map_congr_left fun a _ => ?_
  simp [Function.comp, policyBlock_truncResult]

/-- C8: the assembled context string depends only on the first 10 recent
transactions, the first 6 policy excerpts, and the first 500 characters of
each excerpt text — truncating the inputs to exactly those views leaves the
context unchanged — and the truncated views respect those bounds. -/
theorem context_respects_truncation (p : CustomerProfile) (rs : List SearchResult)
    (customer_query policy_summary : String) :
    prepare_enhanced_context p rs customer_query policy_summary =
      prepare_enhanced_context
        { p with recent_transactions := p.recent_transactions.take 10 }
        ((rs.take 6).map truncResult) customer_query policy_summary ∧
    (contextTxLines p).length ≤ 10 ∧
    (contextPolicyBlocks rs).length ≤ 6 ∧
    (∀ r ∈ rs.take 6, (strTake r.document 500).length ≤ 500) := by
  refine ⟨?_, ?_, ?_, fun r _ => strTake_length_le r.document 500⟩
  · have hcs : customerSection
        { p with recent_transactions := p.recent_transactions.take 10 } =
        customerSection p := rfl
    simp only [prepare_enhanced_context, hcs, contextTxLines_trunc,
      contextPolicyBlocks_trunc]
  · simp [contextTxLines]
  · simp [contextPolicyBlocks]

/-- Witness for C8 at a concrete search result. -/
theorem context_respects_truncation_witness :
    (strTake { filename := "f", collection := "c", document := "policy text",
               final_score := 1/2 : SearchResult }.document 500).length ≤ 500 :=
  (context_respects_truncation scenarioA
      [{ filename := "f", collection := "c", document := "policy text",
         final_score := 1/2 }] "q" "ps").2.2.2
    { filename := "f", collection := "c", document := "policy text", final_score := 1/2 }
    (by simp)

/-- A generation capability that always succeeds with the same text. -/
def genConstOk : String → Except String String := fun _ => Except.ok "text"

/-- A generation capability whose first invocation raises. -/
def genConstErr : String → Except String String := fun _ => Except.error "boom"

/-- When every capability invocation succeeds, runStages invokes the
capability once per remaining stage and finishes successfully, for any
member list — duplicated names included. -/
theorem runStages_all_ok (gen : String → Except String String)
    (hgen : ∀ s, ∃ t, gen s = Except.ok t) :
    ∀ (stages : List String) (contribs : List (String × String)) (n : ℕ) (last : String),
      (runStages gen stages contribs n last).invocations = n + stages.length ∧
      ∃ t, (runStages gen stages contribs n last).result = Except.ok t := by
  intro stages
  induction stages with
  | nil => intro contribs n last; exact ⟨by simp [runStages], last, rfl⟩
  | cons s rest ih =>
      intro contribs n last
      obtain ⟨t, ht⟩ := hgen s
      simp only [runStages, ht]
      obtain ⟨h1, h2⟩ := ih (dictInsert contribs s t) (n + 1) t
      refine ⟨?_, h2⟩
      rw [h1, List.length_cons]
      omega

/-- Counterexample to C2 as stated: supplying the duplicated stage list
["A", "A"] to the orchestration wrapper is not rejected — no configuration
error is raised, both stages are invoked (two generation-capability calls,
not zero), the run completes, and the duplicate contribution silently
overwrites the first in the callback dict. -/
theorem duplicate_stages_counterexample :
    ¬ (["A", "A"] : List String).Nodup ∧
    (runPipeline genConstOk ["A", "A"]).invocations = 2 ∧
    (runPipeline genConstOk ["A", "A"]).result = Except.ok "text" ∧
    (runPipeline genConstOk ["A", "A"]).contributions = [("A", "text")] := by
  refine ⟨by simp, rfl, rfl, rfl⟩

/-- C2 amended: the code performs no duplicate-name check at all — for any
member list, duplicated or not, every stage is invoked in order (one
generation call per list entry) and the run proceeds; the only reason each
run's contribution mapping has distinct keys is that the hard-coded agent
list supplied by create_enhanced_agents consists of six distinct names. -/
theorem duplicate_stages_never_rejected (gen : String → Except String String)
    (stages : List String) (hgen : ∀ s, ∃ t, gen s = Except.ok t) :
    enhanced_agent_names.Nodup ∧ enhanced_agent_names.length = 6 ∧
    (runPipeline gen stages).invocations = stages.length ∧
    ∃ t, (runPipeline gen stages).result = Except.ok t := by
  obtain ⟨h1, h2⟩ := runStages_all_ok gen hgen stages [] 0 ""
  exact ⟨by decide, rfl, by simpa using h1, h2⟩

/-- Witness for the amended C2 on a duplicated two-stage list. -/
theorem duplicate_stages_never_rejected_witness :
    (runPipeline genConstOk ["B", "B"]).invocations = 2 ∧
    ∃ t, (runPipeline genConstOk ["B", "B"]).result = Except.ok t :=
  ⟨(duplicate_stages_never_rejected genConstOk ["B", "B"]
      (fun _ => ⟨"text", rfl⟩)).2.2.1,
   (duplicate_stages_never_rejected genConstOk ["B", "B"]
      (fun _ => ⟨"text", rfl⟩)).2.2.2⟩

/-- C6: if the orchestration invocation fails with error e, then
run_enhanced_analysis produces no Analysis Report — the same error
propagates to the caller — and exactly one failure record for that
customer is appended to the interaction log. -/
theorem stage_failure_no_report (gen : String → Except String String)
    (log : List InteractionRecord) (p : CustomerProfile)
    (rs : List SearchResult) (q e : String)
    (h : (runPipeline gen enhanced_agent_names).result = Except.error e) :
    (run_enhanced_analysis gen log p rs q).fst = Except.error e ∧
    (run_enhanced_analysis gen log p rs q).snd =
      log ++ [{ customer_id := p.customer_id, outcome := e }] := by
  simp [run_enhanced_analysis, h, record_failure]

/-- Witness for C6: a capability that raises on its first stage yields the
propagated error and a single appended failure record. -/
theorem stage_failure_no_report_witness :
    (run_enhanced_analysis genConstErr [] scenarioA [] "q").fst = Except.error "boom" ∧
    (run_enhanced_analysis genConstErr [] scenarioA [] "q").snd =
      [] ++ [{ customer_id := scenarioA.customer_id, outcome := "boom" }] :=
  stage_failure_no_report genConstErr [] scenarioA [] "q" "boom" rfl

end VectraBank
